import Mathlib

/-!
Shallow embedding of the hhwtrade.com trading gateway core, translated from
the Go sources, together with theorems settling the specification claims.

Sections:
* subscription registry (internal/engine/subscription.go, internal/model/user.go
  service snapshot MarketServiceImpl)
* CTP trade-response handler (internal/ctp/handler.go)
* condition-order strategy runner (internal/strategies/runner.go)
* trading service PlaceOrder (service TradingServiceImpl)
* CTP client InsertOrder command encoding (ctp Client)
-/

namespace HHWTrade

/-! ### Subscription registry

The Go code keeps a `map[string]int` of per-instrument subscriber counts.
We embed the map as an association list; a missing key reads as 0, exactly
like a Go map read. `setCount` writes (replacing the first binding or
appending), `eraseKey` models Go `delete`.
-/

/-- Reference-counted subscription map: instrument id to subscriber count. -/
abbrev SubMap := List (String × Nat)

/-- Map read: Go `m[k]` (0 when the key is absent). -/
def lookupCount : SubMap → String → Nat
  | [], _ => 0
  | (k', c) :: rest, k => if k' == k then c else lookupCount rest k

/-- Map write: Go `m[k] = c` (replace the binding, or append a new one). -/
def setCount : SubMap → String → Nat → SubMap
  | [], k, c => [(k, c)]
  | (k', c') :: rest, k, c =>
    if k' == k then (k, c) :: rest else (k', c') :: setCount rest k c

/-- Map delete: Go `delete(m, k)`. -/
def eraseKey : SubMap → String → SubMap
  | [], _ => []
  | (k', c') :: rest, k =>
    if k' == k then eraseKey rest k else (k', c') :: eraseKey rest k

/-- Key membership in the map. -/
def hasKey : SubMap → String → Bool
  | [], _ => false
  | (k', _) :: rest, k => k' == k || hasKey rest k

/-- Keys currently stored in the map; Go `GetActiveSymbols` iterates all keys
regardless of their count. -/
def getActiveSymbols (m : SubMap) : List String :=
  m.map (fun p => p.1)

/-- `SubscriptionState.AddSubscription` (internal/engine/subscription.go):
increments the count and reports whether it is now exactly 1. -/
def addSubscription (m : SubMap) (k : String) : SubMap × Bool :=
  (setCount m k (lookupCount m k + 1),
   lookupCount (setCount m k (lookupCount m k + 1)) k == 1)

/-- `SubscriptionState.RemoveSubscription`: when the count is positive,
decrement; when it reaches 0, delete the entry and report true. -/
def removeSubscription (m : SubMap) (k : String) : SubMap × Bool :=
  if 0 < lookupCount m k then
    if lookupCount (setCount m k (lookupCount m k - 1)) k == 0 then
      (eraseKey (setCount m k (lookupCount m k - 1)) k, true)
    else
      (setCount m k (lookupCount m k - 1), false)
  else (m, false)

/-- `MarketServiceImpl.AddExistingSubscription` (restore path): the Go body
executes `s.subscriptions[instrumentID]++` twice in a row. -/
def addExistingSubscription (m : SubMap) (k : String) : SubMap :=
  setCount (setCount m k (lookupCount m k + 1)) k
    (lookupCount (setCount m k (lookupCount m k + 1)) k + 1)

/-- `MarketServiceImpl.Subscribe`: increment, and when the count transitioned
to 1 issue the upstream subscribe (outcome `upstreamOk`); on upstream failure
decrement again and report failure. Result: (new map, call succeeded). -/
def marketSubscribe (m : SubMap) (k : String) (upstreamOk : Bool) :
    SubMap × Bool :=
  if lookupCount (setCount m k (lookupCount m k + 1)) k == 1 then
    if upstreamOk then
      (setCount m k (lookupCount m k + 1), true)
    else
      (setCount (setCount m k (lookupCount m k + 1)) k
        (lookupCount (setCount m k (lookupCount m k + 1)) k - 1), false)
  else (setCount m k (lookupCount m k + 1), true)

/-! Basic map lemmas. -/

theorem lookupCount_setCount_self (m : SubMap) (k : String) (c : Nat) :
    lookupCount (setCount m k c) k = c := by
  induction m with
  | nil => simp [setCount, lookupCount]
  | cons hd tl ih =>
    cases h : hd.1 == k with
    | true => simp [setCount, lookupCount, h]
    | false => simp [setCount, lookupCount, h, ih]

theorem lookupCount_eraseKey_self (m : SubMap) (k : String) :
    lookupCount (eraseKey m k) k = 0 := by
  induction m with
  | nil => simp [eraseKey, lookupCount]
  | cons hd tl ih =>
    cases h : hd.1 == k with
    | true => simp [eraseKey, h, ih]
    | false => simp [eraseKey, lookupCount, h, ih]

theorem hasKey_eraseKey_self (m : SubMap) (k : String) :
    hasKey (eraseKey m k) k = false := by
  induction m with
  | nil => simp [eraseKey, hasKey]
  | cons hd tl ih =>
    cases h : hd.1 == k with
    | true => simp [eraseKey, h, ih]
    | false => simp [eraseKey, hasKey, h, ih]

/-- C5: AddRef increments the counter and reports first-time exactly on the
0 to 1 transition; ReleaseRef decrements clamping at 0, reports last-release
exactly on the 1 to 0 transition and then removes the entry; two AddRefs
followed by one ReleaseRef leave the counter at 1, and a second ReleaseRef
removes the entry. -/
theorem addRef_releaseRef_refcount_semantics :
    (∀ (m : SubMap) (k : String),
      ((addSubscription m k).2 = true ↔ lookupCount m k = 0) ∧
      lookupCount (addSubscription m k).1 k = lookupCount m k + 1 ∧
      lookupCount (removeSubscription m k).1 k = lookupCount m k - 1 ∧
      ((removeSubscription m k).2 = true ↔ lookupCount m k = 1) ∧
      (lookupCount m k = 1 → hasKey (removeSubscription m k).1 k = false)) ∧
    removeSubscription
      (addSubscription (addSubscription [] "ag2506").1 "ag2506").1 "ag2506" =
      ([("ag2506", 1)], false) ∧
    removeSubscription [("ag2506", 1)] "ag2506" = ([], true) := by
  refine ⟨fun m k => ⟨?_, ?_, ?_, ?_, ?_⟩, by decide, by decide⟩
  · simp only [addSubscription, lookupCount_setCount_self, beq_iff_eq]
    omega
  · simp [addSubscription, lookupCount_setCount_self]
  · by_cases h : 0 < lookupCount m k
    · by_cases h1 : lookupCount m k = 1
      · simp [removeSubscription, h, h1, lookupCount_setCount_self,
          lookupCount_eraseKey_self]
      · have hne : ¬(lookupCount m k - 1 = 0) := by omega
        simp [removeSubscription, h, lookupCount_setCount_self, hne]
    · have h0 : lookupCount m k = 0 := by omega
      simp [removeSubscription, h, h0]
  · by_cases h : 0 < lookupCount m k
    · by_cases h1 : lookupCount m k = 1
      · simp [removeSubscription, h, h1, lookupCount_setCount_self]
      · have hne : ¬(lookupCount m k - 1 = 0) := by omega
        simp [removeSubscription, h, lookupCount_setCount_self, hne, h1]
    · have h0 : lookupCount m k = 0 := by omega
      simp [removeSubscription, h, h0]
  · intro h1
    have h : 0 < lookupCount m k := by omega
    simp [removeSubscription, h, h1, lookupCount_setCount_self,
      hasKey_eraseKey_self]

/-- C5 witnessed at a concrete registry: first-time detection on the empty
registry, and removal of the entry when releasing a counter of 1. -/
theorem addRef_releaseRef_refcount_semantics_case :
    ((addSubscription [] "cu2507").2 = true ↔
      lookupCount [] "cu2507" = 0) ∧
    hasKey (removeSubscription [("cu2507", 1)] "cu2507").1 "cu2507" =
      false :=
  ⟨(addRef_releaseRef_refcount_semantics.1 [] "cu2507").1,
   (addRef_releaseRef_refcount_semantics.1
      [("cu2507", 1)] "cu2507").2.2.2.2 (by decide)⟩

/-- C4 (code-bug evidence): a single call to AddExistingSubscription adds 2 to
the instrument's counter, not 1; on a fresh registry the counter lands at 2. -/
theorem addExistingSubscription_double_increment :
    lookupCount (addExistingSubscription [] "rb2505") "rb2505" = 2 ∧
    ∀ (m : SubMap) (k : String),
      lookupCount (addExistingSubscription m k) k = lookupCount m k + 2 := by
  refine ⟨by decide, fun m k => ?_⟩
  simp [addExistingSubscription, lookupCount_setCount_self]

/-- C9 counterexample: a failed first-time Subscribe does not leave the
registry unchanged; the map retains a zero-count entry for the instrument,
which GetActiveSymbols then reports. -/
theorem marketSubscribe_failure_leaves_zero_entry :
    marketSubscribe [] "rb2505" false = ([("rb2505", 0)], false) ∧
    getActiveSymbols (marketSubscribe [] "rb2505" false).1 = ["rb2505"] ∧
    getActiveSymbols ([] : SubMap) = [] := by decide

/-- C9 amended: when a first-time Subscribe (counter 0) fails upstream, the
call reports failure and the counter is rolled back to its previous value,
though the map may retain a zero-count entry. -/
theorem marketSubscribe_failure_rolls_back_counter (m : SubMap) (k : String)
    (hfirst : lookupCount m k = 0) :
    (marketSubscribe m k false).2 = false ∧
    lookupCount (marketSubscribe m k false).1 k = lookupCount m k := by
  simp [marketSubscribe, lookupCount_setCount_self, hfirst]

/-- C9 amended, witnessed at a concrete registry. -/
theorem marketSubscribe_failure_rolls_back_counter_case :
    (marketSubscribe [] "rb2505" false).2 = false ∧
    lookupCount (marketSubscribe [] "rb2505" false).1 "rb2505" =
      lookupCount [] "rb2505" :=
  marketSubscribe_failure_rolls_back_counter [] "rb2505" (by decide)

/-! ### Data model (internal/model/trade.go)

Go `int` fields are embedded as `Int`, `float64` prices as `ℚ` (no rounding
behaviour is relied on by any claim), CTP one-character codes as `String`.
Field defaults are the Go zero values.
-/

/-- CTP direction code for buy. -/
def DirectionBuy : String := "0"

/-- CTP direction code for sell. -/
def DirectionSell : String := "1"

/-- CTP offset code for open. -/
def OffsetOpen : String := "0"

/-- CTP offset code for close. -/
def OffsetClose : String := "1"

/-- CTP offset code for close-today. -/
def OffsetCloseToday : String := "3"

/-- CTP offset code for close-yesterday. -/
def OffsetCloseYesterday : String := "4"

/-- CTP order status: fully traded. -/
def OrderStatusAllTraded : String := "0"

/-- CTP order status: partially traded, still queueing. -/
def OrderStatusPartTradedQueueing : String := "1"

/-- CTP order status: no trade yet, still queueing. -/
def OrderStatusNoTradeQueueing : String := "3"

/-- CTP order status: no trade, not queueing (used as the rejected state). -/
def OrderStatusNoTradeNotQueueing : String := "4"

/-- CTP order status: canceled. -/
def OrderStatusCanceled : String := "5"

/-- Internal order status: sent to CTP. -/
def OrderStatusSent : String := "S"

/-- Terminal statuses of the spec: ALL_TRADED, CANCELED,
NO_TRADE_UNQUEUED (which also serves as REJECTED). -/
def isTerminalStatus (s : String) : Bool :=
  s == OrderStatusAllTraded || s == OrderStatusCanceled ||
    s == OrderStatusNoTradeNotQueueing

/-- model.Order (internal/model/trade.go). -/
structure Order where
  id : Nat := 0
  userID : String := ""
  investorID : String := ""
  instrumentID : String := ""
  exchangeID : String := ""
  orderRef : String := ""
  direction : String := ""
  combOffsetFlag : String := ""
  limitPrice : ℚ := 0
  volumeTotalOriginal : Int := 0
  volumeTraded : Int := 0
  orderStatus : String := ""
  orderSysID : String := ""
  statusMsg : String := ""
  frontID : Int := 0
  sessionID : Int := 0
  strategyID : Option Nat := none
  deriving Repr, DecidableEq

/-- model.Trade (internal/model/trade.go). -/
structure Trade where
  orderID : Nat := 0
  orderRef : String := ""
  orderSysID : String := ""
  tradeID : String := ""
  instrumentID : String := ""
  direction : String := ""
  offsetFlag : String := ""
  price : ℚ := 0
  volume : Int := 0
  strategyID : Option Nat := none
  deriving Repr, DecidableEq

/-- model.OrderLog (internal/model/trade.go). -/
structure OrderLog where
  orderID : Nat := 0
  oldStatus : String := ""
  newStatus : String := ""
  message : String := ""
  deriving Repr, DecidableEq

/-- model.Position (internal/model/trade.go). -/
structure Position where
  userID : String := ""
  instrumentID : String := ""
  posiDirection : String := ""
  hedgeFlag : String := "1"
  position : Int := 0
  ydPosition : Int := 0
  todayPosition : Int := 0
  positionCost : ℚ := 0
  averagePrice : ℚ := 0
  deriving Repr, DecidableEq

/-- The persistent state the CTP response handler reads and writes, plus a
count of broadcasts sent through the notifier. -/
structure HandlerState where
  orders : List Order := []
  orderLogs : List OrderLog := []
  trades : List Trade := []
  positions : List Position := []
  broadcasts : Nat := 0
  deriving Repr, DecidableEq

/-! ### CTP response handler (internal/ctp/handler.go) -/

/-- The field-update map built by handleRtnOrder, applied to the matched
order: each of the three fields is written only when non-empty. -/
def rtnOrderApply (o : Order) (statusStr sysID errMsg : String) : Order :=
  { o with
    orderStatus := if statusStr != "" then statusStr else o.orderStatus,
    orderSysID := if sysID != "" then sysID else o.orderSysID,
    statusMsg := if errMsg != "" then errMsg else o.statusMsg }

/-- handleRtnOrder: find the order by orderRef = requestID; if found, append
an OrderLog recording the transition, and when any of the three payload
fields is non-empty, update the row and broadcast. -/
def handleRtnOrder (st : HandlerState)
    (requestID statusStr sysID errMsg : String) : HandlerState :=
  match st.orders.find? (fun o => o.orderRef == requestID) with
  | none => st
  | some o =>
    let st1 := { st with orderLogs := st.orderLogs ++
      [{ orderID := o.id, oldStatus := o.orderStatus,
         newStatus := statusStr, message := errMsg }] }
    if statusStr != "" || sysID != "" || errMsg != "" then
      { st1 with
        orders := st1.orders.map (fun x =>
          if x.id == o.id then rtnOrderApply x statusStr sysID errMsg else x),
        broadcasts := st1.broadcasts + 1 }
    else st1

/-- The partial-fill update of handleRtnTrade on the matched order:
volumeTraded is incremented by the trade volume; the status becomes
ALL_TRADED when the new fill count reaches or exceeds the original volume,
else PART_TRADED_QUEUEING. -/
def applyTradeFill (o : Order) (tradeVol : Int) : Order :=
  { o with
    volumeTraded := o.volumeTraded + tradeVol,
    orderStatus :=
      if o.volumeTotalOriginal ≤ o.volumeTraded + tradeVol then
        OrderStatusAllTraded
      else OrderStatusPartTradedQueueing }

/-- PosiDirection chosen by updatePosition: 2 = long, 3 = short. -/
def posiDirectionFor (o : Order) : String :=
  if o.direction == DirectionBuy then
    if o.combOffsetFlag != OffsetOpen then "3" else "2"
  else
    if o.combOffsetFlag == OffsetOpen then "3" else "2"

/-- The position row created by updatePosition when no row exists and the
offset is open. -/
def openNewPosition (o : Order) (tradeVol : Int) (tradePrice : ℚ) : Position :=
  { userID := o.userID, instrumentID := o.instrumentID,
    posiDirection := posiDirectionFor o, hedgeFlag := "1",
    position := tradeVol, todayPosition := tradeVol, ydPosition := 0,
    averagePrice := tradePrice, positionCost := tradePrice * (tradeVol : ℚ) }

/-- The update applied by updatePosition to an existing row on an open fill. -/
def applyOpenFill (p : Position) (tradeVol : Int) (tradePrice : ℚ) : Position :=
  { p with
    positionCost := p.positionCost + tradePrice * (tradeVol : ℚ),
    averagePrice :=
      if 0 < p.position + tradeVol then
        (p.positionCost + tradePrice * (tradeVol : ℚ)) /
          ((p.position + tradeVol : Int) : ℚ)
      else p.averagePrice,
    position := p.position + tradeVol,
    todayPosition := p.todayPosition + tradeVol }

/-- The update applied by updatePosition to an existing row on a closing
fill: total is decremented and clamped at 0; the today bucket is decremented
for close-today, otherwise the yesterday bucket; both buckets are clamped
at 0 afterwards. -/
def applyCloseFill (p : Position) (offset : String) (tradeVol : Int) :
    Position :=
  { p with
    position := max (p.position - tradeVol) 0,
    todayPosition :=
      if offset == OffsetCloseToday then max (p.todayPosition - tradeVol) 0
      else max p.todayPosition 0,
    ydPosition :=
      if offset == OffsetCloseToday then max p.ydPosition 0
      else max (p.ydPosition - tradeVol) 0 }

/-- updatePosition (internal/ctp/handler.go): select the row by
(user, instrument, posiDirection); create on open when absent, otherwise
apply the open or close row update and save. -/
def updatePosition (st : HandlerState) (o : Order) (tradeVol : Int)
    (tradePrice : ℚ) : HandlerState :=
  match st.positions.find? (fun p =>
      p.userID == o.userID && p.instrumentID == o.instrumentID &&
      p.posiDirection == posiDirectionFor o) with
  | none =>
    if o.combOffsetFlag == OffsetOpen then
      { st with positions :=
          st.positions ++ [openNewPosition o tradeVol tradePrice] }
    else st
  | some p =>
    let upd := if o.combOffsetFlag == OffsetOpen then
        applyOpenFill p tradeVol tradePrice
      else applyCloseFill p o.combOffsetFlag tradeVol
    { st with positions := st.positions.map (fun q =>
        if q.userID == p.userID && q.instrumentID == p.instrumentID &&
           q.posiDirection == p.posiDirection && q.hedgeFlag == p.hedgeFlag
        then upd else q) }

/-- handleRtnTrade: find the order by orderRef; insert a Trade row, apply the
partial-fill update, update the position, broadcast. -/
def handleRtnTrade (st : HandlerState) (requestID : String) (tradeVol : Int)
    (price : ℚ) (tradeIdent : String) : HandlerState :=
  match st.orders.find? (fun o => o.orderRef == requestID) with
  | none => st
  | some o =>
    let st1 := { st with
      trades := st.trades ++
        [{ orderID := o.id, orderRef := o.orderRef, orderSysID := o.orderSysID,
           tradeID := tradeIdent, instrumentID := o.instrumentID,
           direction := o.direction, offsetFlag := o.combOffsetFlag,
           price := price, volume := tradeVol, strategyID := o.strategyID }],
      orders := st.orders.map (fun x =>
        if x.id == o.id then applyTradeFill x tradeVol else x) }
    let st2 := updatePosition st1 o tradeVol price
    { st2 with broadcasts := st2.broadcasts + 1 }

/-! ### Example fixtures for the handler claims -/

/-- An order already in the terminal status ALL_TRADED. -/
def terminalOrderExample : Order :=
  { id := 1, orderRef := "O1", orderStatus := OrderStatusAllTraded }

/-- Handler state holding only the terminal order. -/
def terminalStateExample : HandlerState := { orders := [terminalOrderExample] }

/-- An order still queueing, used for the empty-payload RTN_ORDER claim. -/
def queuedOrderExample : Order :=
  { id := 2, orderRef := "O2", orderStatus := OrderStatusNoTradeQueueing }

/-- Handler state holding only the queueing order. -/
def queuedStateExample : HandlerState := { orders := [queuedOrderExample] }

/-- An unfilled order of original volume 1. -/
def overfillOrderExample : Order :=
  { id := 3, orderRef := "O3", volumeTotalOriginal := 1, volumeTraded := 0,
    orderStatus := OrderStatusNoTradeQueueing }

/-- A partially filled order: 1 of 3 lots filled. -/
def partialOrderExample : Order :=
  { id := 5, orderRef := "O5", volumeTotalOriginal := 3, volumeTraded := 1,
    orderStatus := OrderStatusPartTradedQueueing }

/-- C1 (code-bug evidence): an order in the terminal status ALL_TRADED is
moved back to NO_TRADE_QUEUED by a later RTN_ORDER carrying that status;
handleRtnOrder performs no terminal-state check. -/
theorem rtnOrder_overwrites_terminal_status :
    isTerminalStatus terminalOrderExample.orderStatus = true ∧
    (handleRtnOrder terminalStateExample "O1"
      OrderStatusNoTradeQueueing "" "").orders.map Order.orderStatus =
      [OrderStatusNoTradeQueueing] ∧
    isTerminalStatus OrderStatusNoTradeQueueing = false := by decide

/-- C10: an RTN_ORDER whose OrderStatus, OrderSysID and StatusMsg are all
empty leaves the order rows, trades, positions and broadcast count unchanged,
but still appends an OrderLog entry recording the empty transition. -/
theorem rtnOrder_empty_fields_only_logs (st : HandlerState) (req : String)
    (o : Order)
    (hfind : st.orders.find? (fun x => x.orderRef == req) = some o) :
    (handleRtnOrder st req "" "" "").orders = st.orders ∧
    (handleRtnOrder st req "" "" "").broadcasts = st.broadcasts ∧
    (handleRtnOrder st req "" "" "").trades = st.trades ∧
    (handleRtnOrder st req "" "" "").positions = st.positions ∧
    (handleRtnOrder st req "" "" "").orderLogs = st.orderLogs ++
      [{ orderID := o.id, oldStatus := o.orderStatus,
         newStatus := "", message := "" }] := by
  simp [handleRtnOrder, hfind]

/-- C10 witnessed at a concrete state. -/
theorem rtnOrder_empty_fields_only_logs_case :
    (handleRtnOrder queuedStateExample "O2" "" "" "").orders =
      queuedStateExample.orders ∧
    (handleRtnOrder queuedStateExample "O2" "" "" "").broadcasts =
      queuedStateExample.broadcasts ∧
    (handleRtnOrder queuedStateExample "O2" "" "" "").trades =
      queuedStateExample.trades ∧
    (handleRtnOrder queuedStateExample "O2" "" "" "").positions =
      queuedStateExample.positions ∧
    (handleRtnOrder queuedStateExample "O2" "" "" "").orderLogs =
      queuedStateExample.orderLogs ++
      [{ orderID := queuedOrderExample.id,
         oldStatus := queuedOrderExample.orderStatus,
         newStatus := "", message := "" }] :=
  rtnOrder_empty_fields_only_logs queuedStateExample "O2" queuedOrderExample
    (by decide)

/-- Handler state holding only the unfilled 1-lot order. -/
def overfillStateExample : HandlerState := { orders := [overfillOrderExample] }

/-- C2 counterexample: an RTN_TRADE of volume 2 against an order of original
volume 1 drives volumeTraded to 2 (beyond the original volume) and sets
ALL_TRADED although volumeTraded is not equal to the original volume; the
full handleRtnTrade path produces exactly that row. -/
theorem rtnTrade_overfill_breaks_invariant :
    (handleRtnTrade overfillStateExample "O3" 2 100 "T1").orders.map
      (fun x => (x.volumeTraded, x.orderStatus)) =
      [(2, OrderStatusAllTraded)] ∧
    (applyTradeFill overfillOrderExample 2).volumeTraded = 2 ∧
    (applyTradeFill overfillOrderExample 2).orderStatus =
      OrderStatusAllTraded ∧
    ¬((applyTradeFill overfillOrderExample 2).volumeTraded ≤
      (applyTradeFill overfillOrderExample 2).volumeTotalOriginal) ∧
    ¬((applyTradeFill overfillOrderExample 2).orderStatus =
        OrderStatusAllTraded ↔
      (applyTradeFill overfillOrderExample 2).volumeTraded =
        (applyTradeFill overfillOrderExample 2).volumeTotalOriginal) := by
  decide

/-- C2 amended: when the previous fill count is non-negative, the trade
volume is non-negative and the trade does not overfill the order, the updated
order satisfies 0 le volumeTraded le volumeTotalOriginal, and its status is
ALL_TRADED iff volumeTraded = volumeTotalOriginal. -/
theorem rtnTrade_fill_invariant (o : Order) (v : Int)
    (h0 : 0 ≤ o.volumeTraded) (hv : 0 ≤ v)
    (hcap : o.volumeTraded + v ≤ o.volumeTotalOriginal) :
    0 ≤ (applyTradeFill o v).volumeTraded ∧
    (applyTradeFill o v).volumeTraded ≤
      (applyTradeFill o v).volumeTotalOriginal ∧
    ((applyTradeFill o v).orderStatus = OrderStatusAllTraded ↔
      (applyTradeFill o v).volumeTraded =
        (applyTradeFill o v).volumeTotalOriginal) := by
  simp only [applyTradeFill]
  refine ⟨by omega, by omega, ?_⟩
  by_cases h : o.volumeTotalOriginal ≤ o.volumeTraded + v
  · simp only [if_pos h]
    constructor
    · intro _
      omega
    · intro _
      trivial
  · simp only [if_neg h]
    constructor
    · intro habs
      exact absurd habs (by decide)
    · intro heq
      omega

/-- C2 amended, witnessed: filling 2 more lots of a 3-lot order with 1 lot
already filled reaches exactly ALL_TRADED. -/
theorem rtnTrade_fill_invariant_case :
    0 ≤ (applyTradeFill partialOrderExample 2).volumeTraded ∧
    (applyTradeFill partialOrderExample 2).volumeTraded ≤
      (applyTradeFill partialOrderExample 2).volumeTotalOriginal ∧
    ((applyTradeFill partialOrderExample 2).orderStatus =
        OrderStatusAllTraded ↔
      (applyTradeFill partialOrderExample 2).volumeTraded =
        (applyTradeFill partialOrderExample 2).volumeTotalOriginal) :=
  rtnTrade_fill_invariant partialOrderExample 2 (by decide) (by decide)
    (by decide)

/-- The position invariant claimed by the spec: total = today + yesterday and
all three fields non-negative. -/
def positionInvariant (p : Position) : Prop :=
  p.position = p.todayPosition + p.ydPosition ∧
  0 ≤ p.position ∧ 0 ≤ p.todayPosition ∧ 0 ≤ p.ydPosition

instance (p : Position) : Decidable (positionInvariant p) := by
  unfold positionInvariant
  infer_instance

/-- A long position of 2 lots held entirely in the today bucket. -/
def todayOnlyPositionExample : Position :=
  { userID := "u", instrumentID := "rb2505", posiDirection := "2",
    position := 2, todayPosition := 2, ydPosition := 0 }

/-- A sell-close order against that long position. -/
def closeOrderExample : Order :=
  { id := 4, userID := "u", instrumentID := "rb2505", orderRef := "O4",
    direction := DirectionSell, combOffsetFlag := OffsetClose }

/-- Handler state holding only the today-only position. -/
def closeStateExample : HandlerState :=
  { positions := [todayOnlyPositionExample] }

/-- C3 counterexample: closing 1 lot with offset close (which decrements the
yesterday bucket) against a position held entirely in today yields total 1
with today 2 and yesterday 0, so total = today + yesterday fails after a
clamped close performed by updatePosition. -/
theorem updatePosition_close_breaks_sum :
    positionInvariant todayOnlyPositionExample ∧
    (updatePosition closeStateExample closeOrderExample 1 100).positions.map
      (fun p => (p.position, p.todayPosition, p.ydPosition)) = [(1, 2, 0)] ∧
    ¬(∀ p ∈ (updatePosition closeStateExample closeOrderExample 1
        100).positions, positionInvariant p) := by
  decide

/-- C3 amended: an open fill creating a row or applied to a row satisfying
the invariant preserves the invariant (for non-negative trade volume); a
closing fill leaves all three volume fields non-negative and sets
total = max (total - tradeVolume) 0, but need not preserve
total = today + yesterday. -/
theorem updatePosition_invariant_amended :
    (∀ (o : Order) (v : Int) (price : ℚ), 0 ≤ v →
      positionInvariant (openNewPosition o v price)) ∧
    (∀ (p : Position) (v : Int) (price : ℚ),
      positionInvariant p → 0 ≤ v →
      positionInvariant (applyOpenFill p v price)) ∧
    (∀ (p : Position) (off : String) (v : Int),
      0 ≤ (applyCloseFill p off v).position ∧
      0 ≤ (applyCloseFill p off v).todayPosition ∧
      0 ≤ (applyCloseFill p off v).ydPosition ∧
      (applyCloseFill p off v).position = max (p.position - v) 0) := by
  refine ⟨?_, ?_, ?_⟩
  · intro o v price hv
    simp only [positionInvariant, openNewPosition]
    omega
  · intro p v price hp hv
    obtain ⟨hsum, htot, htd, hyd⟩ := hp
    simp only [positionInvariant, applyOpenFill]
    omega
  · intro p off v
    simp only [applyCloseFill]
    refine ⟨le_max_right _ _, ?_, ?_, trivial⟩
    · by_cases h : off == OffsetCloseToday
      · simp only [if_pos h]
        exact le_max_right _ _
      · simp only [if_neg h]
        exact le_max_right _ _
    · by_cases h : off == OffsetCloseToday
      · simp only [if_pos h]
        exact le_max_right _ _
      · simp only [if_neg h]
        exact le_max_right _ _

/-- C3 amended, witnessed at concrete open and close fills. -/
theorem updatePosition_invariant_amended_case :
    positionInvariant (openNewPosition closeOrderExample 2 100) ∧
    positionInvariant (applyOpenFill todayOnlyPositionExample 3 50) ∧
    (0 ≤ (applyCloseFill todayOnlyPositionExample OffsetCloseToday
        1).position ∧
      0 ≤ (applyCloseFill todayOnlyPositionExample OffsetCloseToday
        1).todayPosition ∧
      0 ≤ (applyCloseFill todayOnlyPositionExample OffsetCloseToday
        1).ydPosition ∧
      (applyCloseFill todayOnlyPositionExample OffsetCloseToday 1).position =
        max (todayOnlyPositionExample.position - 1) 0) :=
  ⟨updatePosition_invariant_amended.1 closeOrderExample 2 100 (by decide),
   updatePosition_invariant_amended.2.1 todayOnlyPositionExample 3 50
     (by decide) (by decide),
   updatePosition_invariant_amended.2.2 todayOnlyPositionExample
     OffsetCloseToday 1⟩

/-! ### Condition-order strategy runner (internal/strategies/runner.go)

Prices are `float64` in Go; the runner only compares and copies them, so they
are embedded as `ℚ`. The generated orderRef is derived from wall-clock time
in the source and is left at its default here (no claim mentions it).
-/

/-- model.ConditionOrderConfig (internal/model/strategy.go). -/
structure ConditionOrderConfig where
  triggerPrice : ℚ := 0
  operator : String := ""
  action : String := ""
  volume : Int := 0
  deriving Repr, DecidableEq

/-- ConditionOrderRunner (internal/strategies/runner.go). -/
structure ConditionOrderRunner where
  strategyID : Nat := 0
  instrumentID : String := ""
  cfg : ConditionOrderConfig := {}
  triggered : Bool := false
  deriving Repr, DecidableEq

/-- The operator switch of OnTick: does the tick price satisfy the configured
comparison against the trigger price? Unknown operators never match. -/
def condMatch (op : String) (trigger price : ℚ) : Bool :=
  if op == ">" then decide (trigger < price)
  else if op == ">=" then decide (trigger ≤ price)
  else if op == "<" then decide (price < trigger)
  else if op == "<=" then decide (price ≤ trigger)
  else false

/-- The action switch of OnTick, direction component; the default (unknown
action) is buy. -/
def actionDirection (action : String) : String :=
  if action == "open_long" then DirectionBuy
  else if action == "close_long" then DirectionSell
  else if action == "open_short" then DirectionSell
  else if action == "close_short" then DirectionBuy
  else DirectionBuy

/-- The action switch of OnTick, offset component; the default (unknown
action) is open. -/
def actionOffset (action : String) : String :=
  if action == "open_long" then OffsetOpen
  else if action == "close_long" then OffsetClose
  else if action == "open_short" then OffsetOpen
  else if action == "close_short" then OffsetClose
  else OffsetOpen

/-- The order built by OnTick when the condition fires. -/
def triggerOrder (r : ConditionOrderRunner) (price : ℚ) : Order :=
  { instrumentID := r.instrumentID,
    direction := actionDirection r.cfg.action,
    combOffsetFlag := actionOffset r.cfg.action,
    limitPrice := price,
    volumeTotalOriginal := r.cfg.volume,
    strategyID := some r.strategyID }

/-- ConditionOrderRunner.OnTick: once triggered, never emits again; on the
first matching tick, set the flag and emit the order. -/
def runnerOnTick (r : ConditionOrderRunner) (price : ℚ) :
    ConditionOrderRunner × Option Order :=
  if r.triggered then (r, none)
  else if condMatch r.cfg.operator r.cfg.triggerPrice price then
    ({ r with triggered := true }, some (triggerOrder r price))
  else (r, none)

/-- Feed a sequence of ticks to the runner, collecting emitted orders. -/
def runTicks (r : ConditionOrderRunner) (ps : List ℚ) :
    ConditionOrderRunner × List Order :=
  match ps with
  | [] => (r, [])
  | p :: rest =>
    ((runTicks (runnerOnTick r p).1 rest).1,
     (runnerOnTick r p).2.toList ++ (runTicks (runnerOnTick r p).1 rest).2)

theorem runTicks_of_triggered (r : ConditionOrderRunner) (ps : List ℚ)
    (h : r.triggered = true) : runTicks r ps = (r, []) := by
  induction ps with
  | nil => rfl
  | cons p rest ih => simp [runTicks, runnerOnTick, h, ih]

/-- A freshly loaded (untriggered) runner, as built by
NewConditionOrderRunner. -/
def mkRunner (sid : Nat) (inst : String) (cfg : ConditionOrderConfig) :
    ConditionOrderRunner :=
  { strategyID := sid, instrumentID := inst, cfg := cfg, triggered := false }

/-- The S6 scenario configuration: trigger at 3000 with operator >=,
action open_long, volume 1. -/
def s6Config : ConditionOrderConfig :=
  { triggerPrice := 3000, operator := ">=", action := "open_long",
    volume := 1 }

/-- C6: an untriggered condition runner emits exactly the order built from
the first tick satisfying the operator (nothing when no tick matches), so at
most one order per lifetime; the action mapping, limit price and volume are
as specified; the S6 scenario fires exactly once at the 3000 tick. -/
theorem conditionOrder_fires_once :
    (∀ (sid : Nat) (inst : String) (cfg : ConditionOrderConfig)
        (ps : List ℚ),
      (runTicks (mkRunner sid inst cfg) ps).2 =
        ((ps.find? (fun p => condMatch cfg.operator cfg.triggerPrice p)).map
          (fun p => triggerOrder (mkRunner sid inst cfg) p)).toList ∧
      (runTicks (mkRunner sid inst cfg) ps).2.length ≤ 1) ∧
    (∀ (r : ConditionOrderRunner) (price : ℚ),
      (triggerOrder r price).direction = actionDirection r.cfg.action ∧
      (triggerOrder r price).combOffsetFlag = actionOffset r.cfg.action ∧
      (triggerOrder r price).limitPrice = price ∧
      (triggerOrder r price).volumeTotalOriginal = r.cfg.volume ∧
      (triggerOrder r price).instrumentID = r.instrumentID ∧
      (triggerOrder r price).strategyID = some r.strategyID) ∧
    actionDirection "open_long" = DirectionBuy ∧
    actionOffset "open_long" = OffsetOpen ∧
    actionDirection "close_long" = DirectionSell ∧
    actionOffset "close_long" = OffsetClose ∧
    actionDirection "open_short" = DirectionSell ∧
    actionOffset "open_short" = OffsetOpen ∧
    actionDirection "close_short" = DirectionBuy ∧
    actionOffset "close_short" = OffsetClose ∧
    (runTicks (mkRunner 7 "rb2505" s6Config)
        [2990, 3000, 3010, 3010]).2.map
      (fun o => (o.direction, o.combOffsetFlag, o.limitPrice,
        o.volumeTotalOriginal)) =
      [(DirectionBuy, OffsetOpen, (3000 : ℚ), (1 : Int))] := by
  refine ⟨fun sid inst cfg ps => ?_,
    fun r price => ⟨rfl, rfl, rfl, rfl, rfl, rfl⟩,
    rfl, rfl, rfl, rfl, rfl, rfl, rfl, rfl, by decide⟩
  have key : (runTicks (mkRunner sid inst cfg) ps).2 =
      ((ps.find? (fun p => condMatch cfg.operator cfg.triggerPrice p)).map
        (fun p => triggerOrder (mkRunner sid inst cfg) p)).toList := by
    induction ps with
    | nil => rfl
    | cons p rest ih =>
      by_cases h : condMatch cfg.operator cfg.triggerPrice p
      · have h2 : runnerOnTick (mkRunner sid inst cfg) p =
            ({ mkRunner sid inst cfg with triggered := true },
              some (triggerOrder (mkRunner sid inst cfg) p)) := by
          simp [runnerOnTick, mkRunner, h]
        rw [runTicks, h2,
          runTicks_of_triggered ({ mkRunner sid inst cfg with
            triggered := true }) rest rfl]
        simp [List.find?_cons_of_pos _ h]
      · have h2 : runnerOnTick (mkRunner sid inst cfg) p =
            (mkRunner sid inst cfg, none) := by
          simp [runnerOnTick, mkRunner, h]
        rw [runTicks, h2]
        simp only [Option.toList_none, List.nil_append]
        rw [List.find?_cons_of_neg _ (by simpa using h)]
        exact ih
  refine ⟨key, ?_⟩
  rw [key]
  cases ps.find? (fun p => condMatch cfg.operator cfg.triggerPrice p) with
  | none => simp
  | some p => simp

/-! ### Trading service PlaceOrder (service snapshot TradingServiceImpl)

The upstream dispatch and the asynchronous database write are the two
effects outside the service; their outcomes enter the embedding as the
booleans `insertOk` and `persistOk`. The wall clock enters as the two
numbers PlaceOrder reads from it.
-/

/-- Zero-padded decimal rendering, as Go fmt %06d for values below 10^6. -/
def padZeros (w : Nat) (n : Nat) : String :=
  String.mk (List.replicate (w - (toString n).length) '0') ++ toString n

/-- The generated orderRef: low six digits of the Unix seconds concatenated
with six digits of the microsecond component. -/
def formatOrderRef (timestampPart microPart : Nat) : String :=
  padZeros 6 timestampPart ++ padZeros 6 microPart

/-- Observable outcome of one PlaceOrder call: whether the call returned
without error, the order as stamped by the call, whether the asynchronous
persistence was started, and whether it succeeded. -/
structure PlaceOrderOutcome where
  ok : Bool
  order : Order
  persistAttempted : Bool
  persisted : Bool
  deriving Repr, DecidableEq

/-- TradingServiceImpl.PlaceOrder: generate an orderRef when empty, stamp
status SENT, dispatch upstream; on dispatch failure return the error with no
persistence; on success start the asynchronous persistence and return
success regardless of its outcome. -/
def placeOrder (o : Order) (unixSec nanos : Nat)
    (insertOk persistOk : Bool) : PlaceOrderOutcome :=
  let o1 := if o.orderRef == "" then
      { o with orderRef := formatOrderRef (unixSec % 1000000) (nanos / 1000) }
    else o
  let o2 := { o1 with orderStatus := OrderStatusSent }
  if insertOk then
    { ok := true, order := o2, persistAttempted := true,
      persisted := persistOk }
  else
    { ok := false, order := o2, persistAttempted := false,
      persisted := false }

/-- C7: when the upstream dispatch fails, PlaceOrder reports an error and no
persistence happens; when the dispatch succeeds, the call succeeds whether or
not the (asynchronous) persistence succeeds. -/
theorem placeOrder_dispatch_gates_persistence (o : Order) (s n : Nat)
    (persistOk : Bool) :
    (placeOrder o s n false persistOk).ok = false ∧
    (placeOrder o s n false persistOk).persistAttempted = false ∧
    (placeOrder o s n false persistOk).persisted = false ∧
    (placeOrder o s n true persistOk).ok = true := by
  simp [placeOrder]

/-! ### CTP client InsertOrder encoding (ctp Client) -/

/-- A JSON-like payload value: string, integer or numeric. -/
inductive JsonVal where
  | s (v : String)
  | i (v : Int)
  | q (v : ℚ)
  deriving Repr, DecidableEq

/-- A command payload: ordered key-value pairs. -/
abbrev Payload := List (String × JsonVal)

/-- Read a payload key. -/
def lookupVal : Payload → String → Option JsonVal
  | [], _ => none
  | (k', v) :: rest, k => if k' == k then some v else lookupVal rest k

/-- Write a payload key (replace the binding, or append a new one). -/
def putVal : Payload → String → JsonVal → Payload
  | [], k, v => [(k, v)]
  | (k', v') :: rest, k, v =>
    if k' == k then (k, v) :: rest else (k', v') :: putVal rest k v

/-- The outbound command envelope (ctp Command). -/
structure CtpCommand where
  type : String
  requestID : String
  payload : Payload
  deriving Repr, DecidableEq

/-- The payload literal built by Client.InsertOrder before the InvestorID
fallback. -/
def insertOrderBasePayload (o : Order) : Payload :=
  [("InstrumentID", .s o.instrumentID),
   ("ExchangeID", .s o.exchangeID),
   ("OrderRef", .s o.orderRef),
   ("Direction", .s o.direction),
   ("OffsetFlag", .s o.combOffsetFlag),
   ("Price", .q o.limitPrice),
   ("Volume", .i o.volumeTotalOriginal),
   ("OrderPriceType", .s "LimitPrice"),
   ("TimeCondition", .s "GFD"),
   ("UserID", .s o.userID),
   ("InvestorID", .s o.investorID)]

/-- Client.InsertOrder: build the payload, fall back to UserID when
InvestorID is empty, and send an INSERT_ORDER command whose RequestID is the
order's orderRef. -/
def insertOrderCommand (o : Order) : CtpCommand :=
  { type := "INSERT_ORDER",
    requestID := o.orderRef,
    payload :=
      if o.investorID == "" then
        putVal (insertOrderBasePayload o) "InvestorID" (.s o.userID)
      else insertOrderBasePayload o }

/-- An order with every identity field populated, used to evaluate the
encoded INSERT_ORDER command. -/
def insertOrderExample : Order :=
  { id := 6, userID := "u1", investorID := "inv1", instrumentID := "rb2505",
    exchangeID := "SHFE", orderRef := "000123000456",
    direction := DirectionBuy, combOffsetFlag := OffsetOpen,
    limitPrice := 3850, volumeTotalOriginal := 2 }

/-- C8 counterexample: the encoded INSERT_ORDER payload carries none of the
keys CombOffsetFlag, LimitPrice, VolumeTotalOriginal, VolumeCondition,
ContingentCondition, ForceCloseReason, CombHedgeFlag, and its OrderPriceType
and TimeCondition values are "LimitPrice" and "GFD" rather than "2" and
"3". -/
theorem insertOrder_payload_missing_ctp_fields :
    lookupVal (insertOrderCommand insertOrderExample).payload
      "CombOffsetFlag" = none ∧
    lookupVal (insertOrderCommand insertOrderExample).payload
      "LimitPrice" = none ∧
    lookupVal (insertOrderCommand insertOrderExample).payload
      "VolumeTotalOriginal" = none ∧
    lookupVal (insertOrderCommand insertOrderExample).payload
      "VolumeCondition" = none ∧
    lookupVal (insertOrderCommand insertOrderExample).payload
      "ContingentCondition" = none ∧
    lookupVal (insertOrderCommand insertOrderExample).payload
      "ForceCloseReason" = none ∧
    lookupVal (insertOrderCommand insertOrderExample).payload
      "CombHedgeFlag" = none ∧
    lookupVal (insertOrderCommand insertOrderExample).payload
      "OrderPriceType" = some (.s "LimitPrice") ∧
    lookupVal (insertOrderCommand insertOrderExample).payload
      "TimeCondition" = some (.s "GFD") := by decide

/-- C8 amended: the INSERT_ORDER command has RequestID equal to the order's
orderRef and a payload with keys InstrumentID, ExchangeID, OrderRef,
Direction, OffsetFlag, Price, Volume, OrderPriceType = "LimitPrice",
TimeCondition = "GFD", UserID, and InvestorID falling back to UserID when
empty. -/
theorem insertOrder_command_fields (o : Order) :
    (insertOrderCommand o).type = "INSERT_ORDER" ∧
    (insertOrderCommand o).requestID = o.orderRef ∧
    lookupVal (insertOrderCommand o).payload "InstrumentID" =
      some (.s o.instrumentID) ∧
    lookupVal (insertOrderCommand o).payload "ExchangeID" =
      some (.s o.exchangeID) ∧
    lookupVal (insertOrderCommand o).payload "OrderRef" =
      some (.s o.orderRef) ∧
    lookupVal (insertOrderCommand o).payload "Direction" =
      some (.s o.direction) ∧
    lookupVal (insertOrderCommand o).payload "OffsetFlag" =
      some (.s o.combOffsetFlag) ∧
    lookupVal (insertOrderCommand o).payload "Price" =
      some (.q o.limitPrice) ∧
    lookupVal (insertOrderCommand o).payload "Volume" =
      some (.i o.volumeTotalOriginal) ∧
    lookupVal (insertOrderCommand o).payload "OrderPriceType" =
      some (.s "LimitPrice") ∧
    lookupVal (insertOrderCommand o).payload "TimeCondition" =
      some (.s "GFD") ∧
    lookupVal (insertOrderCommand o).payload "UserID" =
      some (.s o.userID) ∧
    lookupVal (insertOrderCommand o).payload "InvestorID" =
      some (.s (if o.investorID == "" then o.userID else o.investorID)) := by
  by_cases h : o.investorID == "" <;>
    simp [insertOrderCommand, insertOrderBasePayload, lookupVal, putVal, h]

end HHWTrade
